import Mathlib

/-!
Shallow embedding of the BEE2.4 repository components under verification:
the general utilities in src/utils.py (string parsing, boolean coercion,
indentation detection, the stretch-fit packing algorithm, the EmptyMapping
singleton, the AtomicWriter context manager and the Vec geometry class),
the positioning conditions in src/conditions/positioning.py, the resizable
trigger generator in src/conditions/resizableTrigger.py and the voice line
system in src/voiceLine.py.

Python floating point numbers are modelled as exact rationals; Python
exceptions are modelled with an explicit error type and Except results.
-/

namespace BEE2

/-- The Python exceptions raised by the embedded code paths. -/
inductive PyErr where
  | indexError
  | keyError
  | valueError
  | attributeError
  | stopIteration
  | fileNotFound
  deriving DecidableEq, Repr

instance {ε α : Type} [DecidableEq ε] [DecidableEq α] : DecidableEq (Except ε α) := fun a b =>
  match a, b with
  | .error e, .error f =>
    if h : e = f then isTrue (by rw [h]) else isFalse (fun c => h (by cases c; rfl))
  | .ok x, .ok y =>
    if h : x = y then isTrue (by rw [h]) else isFalse (fun c => h (by cases c; rfl))
  | .error _, .ok _ => isFalse (fun c => by cases c)
  | .ok _, .error _ => isFalse (fun c => by cases c)

/-! ## Python string primitives used by utils.parse_str -/

/-- Python str.split with an explicit single-space separator: splits at
every occurrence of the separator and keeps empty tokens, so
splitting " 1 2" yields ["", "1", "2"] and splitting "" yields [""]. -/
def pySplitSpace : List Char → List (List Char)
  | [] => [[]]
  | ' ' :: rest => [] :: pySplitSpace rest
  | c :: rest =>
    match pySplitSpace rest with
    | [] => [[c]]
    | t :: ts => (c :: t) :: ts

/-- Numeric value of a list of decimal digit characters. -/
def digitsVal (l : List Char) : Nat :=
  l.foldl (fun a c => 10 * a + (c.toNat - 48)) 0

/-- Core of the Python float() literal grammar on a sign-stripped token:
digits with an optional fractional part, at least one digit in total.
(The exponent and inf/nan forms are not used by this repository and are
not modelled.) Returns none where Python float() raises ValueError. -/
def pyFloatCore (l : List Char) : Option ℚ :=
  match l.span Char.isDigit with
  | (intPart, rest) =>
    match rest with
    | [] => if intPart = [] then none else some (digitsVal intPart)
    | '.' :: frac =>
      if frac.all Char.isDigit ∧ (intPart ≠ [] ∨ frac ≠ []) then
        some ((digitsVal intPart : ℚ) + (digitsVal frac : ℚ) / (10 ^ frac.length))
      else none
    | _ => none

/-- Python float() on a token, with an optional leading sign.
Floats are modelled as exact rationals. -/
def pyFloat (s : String) : Option ℚ :=
  match s.data with
  | [] => none
  | '-' :: rest => (pyFloatCore rest).map (fun q => -q)
  | '+' :: rest => pyFloatCore rest
  | l => pyFloatCore l

/-! ## utils.parse_str -/

/-- utils.parse_str on a string input. Mirrors the source exactly:
val.split(" ") must produce exactly three tokens (otherwise the unpacking
ValueError is caught and the defaults are returned); then the indexing
expressions str_x[0] and str_z[-1] are evaluated to test for a bracket
character, raising IndexError on an empty first or last token; finally
the three float() calls either all succeed or the ValueError is caught
and the defaults are returned. -/
def parse_str (val : String) (x y z : ℚ) : Except PyErr (ℚ × ℚ × ℚ) :=
  match pySplitSpace val.data with
  | [str_x, str_y, str_z] =>
    match str_x with
    | [] => .error .indexError
    | c0 :: _ =>
      let sx := if c0 ∈ ['(', '{', '[', '<'] then str_x.drop 1 else str_x
      match str_z.getLast? with
      | none => .error .indexError
      | some cl =>
        let sz := if cl ∈ [')', '}', ']', '>'] then str_z.dropLast else str_z
        match pyFloat ⟨sx⟩, pyFloat ⟨str_y⟩, pyFloat ⟨sz⟩ with
        | some a, some b, some c => .ok (a, b, c)
        | _, _, _ => .ok (x, y, z)
  | _ => .ok (x, y, z)

/-! ## The Vec class (utils.Vec), over exact rationals -/

/-- utils.Vec: a 3-component vector. Components are Python floats,
modelled as exact rationals. -/
structure Vec where
  x : ℚ
  y : ℚ
  z : ℚ
  deriving DecidableEq, Repr

/-- Vec.from_str: parse_str with the given defaults, packed into a Vec.
The parse errors of parse_str propagate. -/
def Vec.from_str (val : String) (x y z : ℚ) : Except PyErr Vec :=
  (parse_str val x y z).map (fun p => ⟨p.1, p.2.1, p.2.2⟩)

/-- Vec.as_tuple. -/
def Vec.as_tuple (v : Vec) : ℚ × ℚ × ℚ := (v.x, v.y, v.z)

/-- Vec.__mul__ with a scalar (the only multiplication the class allows). -/
def Vec.mulScalar (v : Vec) (s : ℚ) : Vec := ⟨v.x * s, v.y * s, v.z * s⟩

/-- Vec.__add__ with another Vec: component-wise. -/
def Vec.addVec (v w : Vec) : Vec := ⟨v.x + w.x, v.y + w.y, v.z + w.z⟩

/-- Vec.__add__ with a scalar: added on every axis. -/
def Vec.addScalar (v : Vec) (s : ℚ) : Vec := ⟨v.x + s, v.y + s, v.z + s⟩

/-- Vec.__neg__. -/
def Vec.neg (v : Vec) : Vec := ⟨-v.x, -v.y, -v.z⟩

/-- Python float floor division x // y for positive y, as used by
Vec.__floordiv__ with a scalar. -/
def qfloordiv (a b : ℚ) : ℚ := (⌊a / b⌋ : ℚ)

/-- Vec.__floordiv__ with a scalar: per-axis float floor division. -/
def Vec.floordivScalar (v : Vec) (s : ℚ) : Vec :=
  ⟨qfloordiv v.x s, qfloordiv v.y s, qfloordiv v.z s⟩

/-- Python round() to the nearest integer, ties to even (used by
round(x, 3) inside Vec.rotate, here on the value scaled by 1000). -/
def roundHalfEven (q : ℚ) : ℤ :=
  let f := ⌊q⌋
  let r := q - f
  if r < 1/2 then f
  else if 1/2 < r then f + 1
  else if f % 2 = 0 then f else f + 1

/-- Python round(x, 3) as used by Vec.rotate to suppress float jitter. -/
def round3 (q : ℚ) : ℚ := (roundHalfEven (q * 1000) : ℚ) / 1000

/-- Vec.mat_mul: multiply by a row-major 3x3 matrix (the source mutates
self; here the new vector is returned). -/
def Vec.mat_mul (v : Vec) (a b c d e f g h i : ℚ) : Vec :=
  ⟨v.x * a + v.y * b + v.z * c,
   v.x * d + v.y * e + v.z * f,
   v.x * g + v.y * h + v.z * i⟩

/-- Vec.rotate with the trigonometry of the three angles supplied as
values: cos/sin of pitch (Y axis), yaw (Z axis) and roll (X axis).
The source computes these with math.cos/math.sin of the angle in
radians; abstracting them lets the embedding stay in exact arithmetic
while quantifying over every possible angle. The matrix entries and
the roll-pitch-yaw application order are copied from the source, as is
the rounding of each component to 3 decimals when round_vals is set. -/
def Vec.rotateTrig (v : Vec) (cos_p sin_p cos_y sin_y cos_r sin_r : ℚ)
    (round_vals : Bool) : Vec :=
  let v1 := v.mat_mul 1 0 0 0 cos_r (-sin_r) 0 sin_r cos_r
  let v2 := v1.mat_mul cos_p 0 sin_p 0 1 0 (-sin_p) 0 cos_p
  let v3 := v2.mat_mul cos_y (-sin_y) 0 sin_y cos_y 0 0 0 1
  if round_vals then ⟨round3 v3.x, round3 v3.y, round3 v3.z⟩ else v3

/-- Exact cosine and sine, in that order, of an angle in degrees that is
an integer multiple of 90; none for other angles (whose trigonometry is
irrational and outside this rational embedding). -/
def cosSinDeg (ang : ℚ) : Option (ℚ × ℚ) :=
  if ang.den = 1 ∧ ang.num % 90 = 0 then
    let k := (ang.num / 90) % 4
    if k = 0 then some (1, 0)
    else if k = 1 then some (0, 1)
    else if k = 2 then some (-1, 0)
    else some (0, -1)
  else none

/-- Vec.rotate at quarter-turn angles given in degrees, exactly as the
source applies it (roll, then pitch, then yaw, then rounding);
none when an angle falls outside the exact trigonometry table. -/
def Vec.rotateDeg (v : Vec) (pitch yaw roll : ℚ) (round_vals : Bool) : Option Vec :=
  match cosSinDeg pitch, cosSinDeg yaw, cosSinDeg roll with
  | some (cp, sp), some (cy, sy), some (cr, sr) =>
    some (v.rotateTrig cp sp cy sy cr sr round_vals)
  | _, _, _ => none

/-- Vec.rotate_by_str: decode the angle string with parse_str (defaults
0, 0, 0), then rotate. Parse errors propagate; the inner Option is none
when the angle is outside the exact trigonometry table. -/
def Vec.rotate_by_str (v : Vec) (ang : String) : Except PyErr (Option Vec) :=
  (parse_str ang 0 0 0).map (fun p => v.rotateDeg p.1 p.2.1 p.2.2 true)

/-! ## conditions/positioning.py: flag_goo_at_loc (PosIsGoo) -/

/-- The cell snap in flag_goo_at_loc: pos = pos // 128 * 128 + 64,
applied to the raw world position. -/
def goo_snap (p : Vec) : Vec :=
  ((p.floordivScalar 128).mulScalar 128).addScalar 64

/-- The position pipeline of flag_goo_at_loc given the already rotated
local offset: pos *= 128; pos += origin; then the cell snap. -/
def goo_pos (rotated origin : Vec) : Vec :=
  goo_snap ((rotated.mulScalar 128).addVec origin)

/-- flag_goo_at_loc up to the registry lookup: the key it looks up in
GOO_LOCS. Vec.from_str(flag.value) with defaults 0 0 0, rotated by the
instance angles, times 128, plus the instance origin, snapped to the
cell center. The outer Except carries parse exceptions; the inner
Option is none when the angle string is outside the exact trigonometry
table of this embedding. -/
def goo_lookup_key (flag_value angles origin_str : String) :
    Except PyErr (Option (ℚ × ℚ × ℚ)) :=
  match Vec.from_str flag_value 0 0 0 with
  | .error e => .error e
  | .ok v =>
    match v.rotate_by_str angles with
    | .error e => .error e
    | .ok none => .ok none
    | .ok (some rot) =>
      match Vec.from_str origin_str 0 0 0 with
      | .error e => .error e
      | .ok origin => .ok (some (goo_pos rot origin).as_tuple)

/-- flag_goo_at_loc: true when the snapped cell key is registered in the
goo location set. -/
def flag_goo_at_loc (goo_locs : List (ℚ × ℚ × ℚ)) (flag_value angles origin_str : String) :
    Except PyErr (Option Bool) :=
  match goo_lookup_key flag_value angles origin_str with
  | .error e => .error e
  | .ok none => .ok none
  | .ok (some key) => .ok (some (decide (key ∈ goo_locs)))

/-- The spec formula for the goo cell: floor(p/128)*128+64 on each axis
of the raw world position p. Stated from the spec words, for comparison
with the code pipeline. -/
def spec_goo_cell (p : Vec) : Vec :=
  ⟨(⌊p.x / 128⌋ : ℚ) * 128 + 64,
   (⌊p.y / 128⌋ : ℚ) * 128 + 64,
   (⌊p.z / 128⌋ : ℚ) * 128 + 64⟩

/-! ## conditions/positioning.py: flag_angles (orientation flag) -/

/-- Resolved target of the orientation flag: either a direction vector
from the DIRECTIONS keyword table, or its special WALL marker. -/
inductive DirTarget where
  | vec (v : Vec)
  | wall
  deriving DecidableEq, Repr

/-- The decision of flag_angles once the target has been resolved
through DIRECTIONS and from_dir and allow_inverse have been read: the
unrotated direction is rotated by the instance angles (whose
trigonometry is supplied as values, covering every angle) and compared.
The WALL case succeeds exactly when the rotated vector is neither
straight up nor straight down; the vector case also accepts the
negation when allow_inverse is set. -/
def flag_angles_eval (normal : DirTarget) (allow_inverse : Bool)
    (cos_p sin_p cos_y sin_y cos_r sin_r : ℚ) (from_dir : Vec) : Bool :=
  let inst_normal := from_dir.rotateTrig cos_p sin_p cos_y sin_y cos_r sin_r true
  match normal with
  | .wall => !(inst_normal = (⟨0, 0, 1⟩ : Vec) || inst_normal = (⟨0, 0, -1⟩ : Vec))
  | .vec n => inst_normal = n || (allow_inverse && inst_normal.neg = n)

/-! ## utils.get_indent -/

/-- utils.get_indent on the character list of the line: walk the line
collecting spaces and tabs; on the first other character return the
collected run; if the loop finishes (empty or all-whitespace line) the
Python function falls off the end and returns None. -/
def get_indent_chars : List Char → Option (List Char)
  | [] => none
  | c :: rest =>
    if c = ' ' ∨ c = '\t' then (get_indent_chars rest).map (fun w => c :: w)
    else some []

/-- utils.get_indent. -/
def get_indent (line : String) : Option String :=
  (get_indent_chars line.data).map (fun w => ⟨w⟩)

/-! ## utils.fit (stretch-fit packing) -/

/-- One send into the append_bothsides coroutine: the first send appends
on the right, the next on the left, alternating. side = false means the
next insertion goes to the right end. -/
def push_side (side : Bool) (x : ℤ) (items : List ℤ) : List ℤ :=
  if side then x :: items else items ++ [x]

/-- The while loop of utils.fit: while dist >= smallest, scan obj in
order for the first item <= dist, send it into the two-sided
accumulator and subtract it. The fuel argument bounds the iterations of
this embedding; none means the fuel ran out or the scan found no item
(in which case the Python loop never terminates). Returns the
accumulator, the alternation side and the remaining distance. -/
def fitLoop : ℕ → ℤ → List ℤ → ℤ → List ℤ → Bool → Option (List ℤ × Bool × ℤ)
  | 0, dist, _, smallest, items, side =>
    if dist < smallest then some (items, side, dist) else none
  | fuel + 1, dist, obj, smallest, items, side =>
    if dist < smallest then some (items, side, dist)
    else
      match obj.find? (fun i => decide (i ≤ dist)) with
      | none => none
      | some item =>
        fitLoop fuel (dist - item) obj smallest (push_side side item items) (!side)

/-- utils.fit. dist is the int() truncation of the target (the source
truncates floats before anything else). An empty obj raises IndexError
at obj[-1], modelled as none, as is a non-terminating loop. After the
loop, a positive remainder is sent into the accumulator once. -/
def fit (dist : ℤ) (obj : List ℤ) : Option (List ℤ) :=
  if dist ≤ 0 then some []
  else
    match obj.getLast? with
    | none => none
    | some smallest =>
      match fitLoop dist.toNat dist obj smallest [] false with
      | none => none
      | some (items, side, rest) =>
        some (if 0 < rest then push_side side rest items else items)

/-! ## utils.EmptyMapping

The class declares no storage (empty __slots__), so its state is the
unit type; every method is embedded over that state so the claim that
mutators leave the mapping empty is expressible. -/

/-- The state of the EmptyMapping singleton: the class has no fields. -/
def EMap : Type := Unit

/-- The one EmptyMapping instance. -/
def em_singleton : EMap := ()

/-- EmptyMapping.__getitem__: raise KeyError. -/
def em_getitem (V : Type) {K : Type} (m : EMap) (k : K) : Except PyErr V :=
  .error .keyError

/-- EmptyMapping.get: return the default (None when not supplied). -/
def em_get {K V : Type} (m : EMap) (k : K) (default : Option V) : Option V :=
  default

/-- EmptyMapping.__contains__: always false. -/
def em_contains {K : Type} (m : EMap) (k : K) : Bool := false

/-- EmptyMapping.__bool__: always false. -/
def em_bool (m : EMap) : Bool := false

/-- EmptyMapping.__len__: always 0. -/
def em_len (m : EMap) : ℕ := 0

/-- EmptyMapping.__next__ (the object is its own iterator):
raise StopIteration, so iteration yields nothing. -/
def em_next (α : Type) (m : EMap) : Except PyErr α :=
  .error .stopIteration

/-- EmptyMapping.__setitem__ (aliased to update, whose body is pass). -/
def em_setitem {K V : Type} (m : EMap) (k : K) (v : V) : EMap := m

/-- EmptyMapping.__delitem__ (aliased to update). -/
def em_delitem {K : Type} (m : EMap) (k : K) : EMap := m

/-- EmptyMapping.clear (aliased to update). -/
def em_clear (m : EMap) : EMap := m

/-- EmptyMapping.update: body is pass, arguments ignored. -/
def em_update {K V : Type} (m : EMap) (args : List (K × V)) : EMap := m

/-- EmptyMapping.setdefault (aliased to get): returns the default and
stores nothing. -/
def em_setdefault {K V : Type} (m : EMap) (k : K) (default : Option V) :
    EMap × Option V :=
  (m, default)

/-- EmptyMapping.pop: with the marker default (none here) raise
KeyError, otherwise return the supplied default; nothing is removed. -/
def em_pop {K V : Type} (m : EMap) (k : K) (default : Option V) :
    EMap × Except PyErr V :=
  (m, match default with
      | none => .error .keyError
      | some d => .ok d)

/-- EmptyMapping.popitem: raise KeyError. -/
def em_popitem (K V : Type) (m : EMap) : EMap × Except PyErr (K × V) :=
  (m, .error .keyError)

/-! ## utils.conv_bool and BOOL_LOOKUP -/

/-- The Python values conv_bool is exercised with: strings, booleans,
ints, floats (modelled as exact rationals) and None. -/
inductive PyVal where
  | pystr (s : String)
  | pybool (b : Bool)
  | pyint (n : ℤ)
  | pyfloat (q : ℚ)
  | pynone
  deriving DecidableEq, Repr

/-- The numeric value of a Python value, for cross-type == and dict key
identity: booleans are 0 and 1, ints and floats their value. -/
def PyVal.numVal : PyVal → Option ℚ
  | .pybool b => some (if b then 1 else 0)
  | .pyint n => some (n : ℚ)
  | .pyfloat q => some q
  | _ => none

/-- Python == on the modelled values: strings by content, None only to
itself, numeric values (bool, int, float) by numeric equality. -/
def pyEq (a b : PyVal) : Bool :=
  match a, b with
  | .pystr s, .pystr t => s = t
  | .pynone, .pynone => true
  | a, b =>
    match a.numVal, b.numVal with
    | some x, some y => x = y
    | _, _ => false

/-- True exactly on string values (values owning a casefold method). -/
def PyVal.isStr : PyVal → Bool
  | .pystr _ => true
  | _ => false

/-- ASCII lowercasing of one character, the effect of str.casefold on
the characters appearing in BOOL_LOOKUP keys. -/
def asciiLower (c : Char) : Char :=
  if 'A' ≤ c ∧ c ≤ 'Z' then Char.ofNat (c.toNat + 32) else c

/-- str.casefold restricted to ASCII. -/
def pyCasefold (s : String) : String := ⟨s.data.map asciiLower⟩

/-- utils.BOOL_LOOKUP, in source order. Python collapses the keys False
and 0 (and 1 and True) into one dict entry; keeping both with equal
values and first-match lookup reproduces that. -/
def BOOL_LOOKUP : List (PyVal × Bool) :=
  [(.pybool false, false), (.pyint 0, false), (.pystr "0", false),
   (.pystr "no", false), (.pystr "false", false), (.pystr "FALSE", false),
   (.pystr "n", false), (.pystr "f", false),
   (.pyint 1, true), (.pybool true, true), (.pystr "1", true),
   (.pystr "yes", true), (.pystr "true", true), (.pystr "TRUE", true),
   (.pystr "y", true), (.pystr "t", true)]

/-- Dict lookup in BOOL_LOOKUP under Python key equality. -/
def boolLookup (v : PyVal) : Option Bool :=
  (BOOL_LOOKUP.find? (fun p => pyEq p.1 v)).map (fun p => p.2)

/-- utils.conv_bool: None yields the default; otherwise try the lookup
table, and on KeyError retry with val.casefold() falling back to the
default - an expression that raises AttributeError when the value is
not a string. -/
def conv_bool (val : PyVal) (default : Bool) : Except PyErr Bool :=
  match val with
  | .pynone => .ok default
  | _ =>
    match boolLookup val with
    | some b => .ok b
    | none =>
      match val with
      | .pystr s => .ok ((boolLookup (.pystr (pyCasefold s))).getD default)
      | _ => .error .attributeError

/-! ## utils.AtomicWriter

The filesystem is a map from path to file content; a file content is
the list of chunks written to it, so "contains exactly the written
content" is the written chunk sequence. -/

/-- A filesystem: path to content, none when the path does not exist. -/
def FS : Type := String → Option (List String)

/-- Point update of a filesystem. -/
def FS.update (fs : FS) (p : String) (c : Option (List String)) : FS :=
  fun q => if q = p then c else fs q

/-- A write to an open file appends a chunk. -/
def FS.write (fs : FS) (p : String) (s : String) : FS :=
  fs.update p (some ((fs p).getD [] ++ [s]))

/-- os.remove: raises FileNotFoundError when the path is absent. -/
def os_remove (fs : FS) (p : String) : Except PyErr FS :=
  match fs p with
  | none => .error .fileNotFound
  | some _ => .ok (fs.update p none)

/-- os.replace: atomically move src over dst, replacing any existing
content; raises when src is absent. -/
def os_replace (fs : FS) (src dst : String) : Except PyErr FS :=
  match fs src with
  | none => .error .fileNotFound
  | some c => .ok ((fs.update src none).update dst (some c))

/-- utils.AtomicWriter: the target filename and the currently open
temporary file, if any. -/
structure AtomicWriter where
  filename : String
  temp : Option String
  deriving DecidableEq

/-- AtomicWriter.__enter__ via make_tempfile: discard a previously open
temporary file, then create a fresh empty temporary file under the
name tmp (NamedTemporaryFile picks a fresh name in the target
directory; the name is a parameter here). Directory creation has no
effect on the file map. -/
def AtomicWriter.enter (w : AtomicWriter) (fs : FS) (tmp : String) :
    AtomicWriter × FS :=
  let fs1 :=
    match w.temp with
    | some old => fs.update old none
    | none => fs
  ({ w with temp := some tmp }, fs1.update tmp (some []))

/-- AtomicWriter.__exit__. exc is whether the body raised. On an
exception the temporary file is removed, a FileNotFoundError from that
removal swallowed, and false is returned (the exception propagates).
On clean exit the temporary file is renamed over the target. none
covers the states unreachable through the context-manager protocol
(no temporary file open, or a failing replace). -/
def AtomicWriter.exit (w : AtomicWriter) (fs : FS) (exc : Bool) :
    Option (AtomicWriter × FS × Bool) :=
  match w.temp with
  | none => none
  | some tmp =>
    let w2 := { w with temp := none }
    if exc then
      some (w2,
        (match os_remove fs tmp with
         | .ok fs2 => fs2
         | .error _ => fs),
        false)
    else
      match os_replace fs tmp w.filename with
      | .ok fs2 => some (w2, fs2, false)
      | .error _ => none

/-- One complete use of AtomicWriter as a context manager: construct
the writer for target, enter with fresh temporary name tmp, perform the
body writes in order, then exit (exceptionally when exc is set). -/
def atomic_run (fs : FS) (target tmp : String) (writes : List String) (exc : Bool) :
    Option (AtomicWriter × FS × Bool) :=
  let wfs := (AtomicWriter.mk target none).enter fs tmp
  let fs2 := writes.foldl (fun f s => f.write tmp s) wfs.2
  wfs.1.exit fs2 exc

/-! ## voiceLine.py module state and add_voice initialization -/

/-- The module-level state of voiceLine.py that the pass touches:
the Map Document reference (an opaque id here), map_attr, style_vars,
QUOTE_EVENTS, ADDED_BULLSEYES and ALLOW_MID_VOICES. -/
structure VoiceState where
  vmf : ℕ
  map_attr : List (String × Bool)
  style_vars : List (String × Bool)
  quote_events : List (String × String)
  added_bullseyes : List String
  allow_mid_voices : Bool
  deriving DecidableEq, Repr

/-- The module state as loaded: empty maps and sets. -/
def voice_initial : VoiceState :=
  { vmf := 0, map_attr := [], style_vars := [], quote_events := [],
    added_bullseyes := [], allow_mid_voices := false }

/-- The global assignments performed at the start of add_voice: VMF,
map_attr and style_vars are rebound to the arguments and
ALLOW_MID_VOICES is recomputed from the nomidvoices style variable.
These are the only module-level rebindings in add_voice; in particular
QUOTE_EVENTS and ADDED_BULLSEYES are not assigned. -/
def add_voice_init (s : VoiceState) (has_items style_vars_arg : List (String × Bool))
    (vmf_file : ℕ) : VoiceState :=
  { s with
    vmf := vmf_file,
    map_attr := has_items,
    style_vars := style_vars_arg,
    allow_mid_voices := !((style_vars_arg.lookup "nomidvoices").getD false) }

/-- The bullseye branch of add_quote: spawn the targeting entity only
when the name is not yet in ADDED_BULLSEYES, and record it. The Bool
reports whether an entity was spawned. -/
def add_bullseye (s : VoiceState) (name : String) : VoiceState × Bool :=
  if name ∈ s.added_bullseyes then (s, false)
  else ({ s with added_bullseyes := name :: s.added_bullseyes }, true)

/-- The QuoteEvent result: record the override instance file for the
casefolded id in QUOTE_EVENTS (a dict assignment: replace any previous
binding of the key). -/
def res_quote_event (s : VoiceState) (id file : String) : VoiceState :=
  { s with quote_events :=
      (pyCasefold id, file) :: s.quote_events.filter (fun p => p.1 != pyCasefold id) }

/-! ## conditions/resizableTrigger.py output re-homing -/

/-- A Map Document output connection, with the fields the re-homing
loop reads and the constructor call sets. inst_out and inst_in are the
optional instance-pin names (None when the output is direct). -/
structure Output where
  output : String
  target : String
  inst_out : Option String
  inst_in : Option String
  inp : String
  params : String
  delay : ℚ
  times : ℤ
  deriving DecidableEq, Repr

/-- The body of the output-copying loop of res_resizeable_trigger for
one marker output: skip the output joining the two markers; an output
matching the registered activate pin is re-emitted under the configured
trigger-activate name and one matching the deactivate pin under the
trigger-deactivate name; anything else is skipped, as is a matched
output whose configured name is the empty string. The re-emitted
output keeps target, inst_in, input, parameters, delay and times, and
has no instance-out pin. -/
def remap_marker_output (partner_name : String)
    (mark_act_name mark_deact_name : Option String)
    (mark_act_out mark_deact_out trig_act trig_deact : String)
    (out : Output) : Option Output :=
  if out.target = partner_name then none
  else
    let trig_out :=
      if out.inst_out = mark_act_name ∧ out.output = mark_act_out then some trig_act
      else if out.inst_out = mark_deact_name ∧ out.output = mark_deact_out then some trig_deact
      else none
    match trig_out with
    | none => none
    | some t =>
      if t = "" then none
      else some
        { output := t, target := out.target, inst_out := none,
          inst_in := out.inst_in, inp := out.inp, params := out.params,
          delay := out.delay, times := out.times }

/-- The whole re-homing pass: the outputs of both markers, filtered and
rewritten onto the generated trigger in order. -/
def rehome_outputs (partner_name : String)
    (mark_act_name mark_deact_name : Option String)
    (mark_act_out mark_deact_out trig_act trig_deact : String)
    (outs : List Output) : List Output :=
  outs.filterMap
    (remap_marker_output partner_name mark_act_name mark_deact_name
      mark_act_out mark_deact_out trig_act trig_deact)

/-! ## Theorems -/

/-- Claim C2: the claim states parse_str never raises on malformed text
and returns the defaults instead. The code contradicts its own
docstring here: on the malformed input " 1 2" (three tokens, the first
empty) the bracket test str_x[0] raises IndexError before the defaults
can be returned, and symmetrically "1 2 " raises at str_z[-1]. -/
theorem parse_str_raises_on_empty_edge_token :
    parse_str " 1 2" 0 0 0 = .error .indexError ∧
    parse_str "1 2 " 7 8 9 = .error .indexError := by
  constructor <;> rfl

/-- Claim C3 (counterexample): the claim asserts that the local offset
"0.6 0 0" with angles "0 0 0" at origin "0 0 0" resolves to world cell
(128,0,0), that is a looked-up key with x = 192. The raw world
position is (76.8, 0, 0), so the code looks up floor(76.8/128)*128+64
= 64 on x: the key is (64, 64, 64), not (192, 64, 64). -/
theorem goo_example_cell_is_64 :
    goo_lookup_key "0.6 0 0" "0 0 0" "0 0 0" = .ok (some (64, 64, 64)) ∧
    ((64 : ℚ), (64 : ℚ), (64 : ℚ)) ≠ ((192 : ℚ), (64 : ℚ), (64 : ℚ)) := by
  constructor
  · simp [goo_lookup_key, Vec.from_str, parse_str, pySplitSpace, pyFloat,
      pyFloatCore, digitsVal, Vec.rotate_by_str, Vec.rotateDeg, cosSinDeg,
      Vec.rotateTrig, Vec.mat_mul, goo_pos, goo_snap, Vec.mulScalar,
      Vec.addVec, Vec.addScalar, Vec.floordivScalar, qfloordiv, round3,
      roundHalfEven, Vec.as_tuple, Except.map]
    norm_num
  · intro h
    exact absurd (congrArg Prod.fst h) (by norm_num)

/-- Claim C3 (amended): for the raw world position p obtained by
rotating the local offset, multiplying by 128 and adding the instance
origin, the cell key looked up in the goo registry equals
floor(p/128)*128+64 on each axis; the example offset (0.6, 0, 0) with
instance angles "0 0 0" at origin (0,0,0) resolves to world cell
(0,0,0), looked up as the cell center (64, 64, 64). -/
theorem goo_cell_snap_formula :
    (∀ rotated origin : Vec,
      goo_pos rotated origin = spec_goo_cell ((rotated.mulScalar 128).addVec origin)) ∧
    goo_lookup_key "0.6 0 0" "0 0 0" "0 0 0" = .ok (some (64, 64, 64)) := by
  constructor
  · intro rotated origin
    rfl
  · simp [goo_lookup_key, Vec.from_str, parse_str, pySplitSpace, pyFloat,
      pyFloatCore, digitsVal, Vec.rotate_by_str, Vec.rotateDeg, cosSinDeg,
      Vec.rotateTrig, Vec.mat_mul, goo_pos, goo_snap, Vec.mulScalar,
      Vec.addVec, Vec.addScalar, Vec.floordivScalar, qfloordiv, round3,
      roundHalfEven, Vec.as_tuple, Except.map]
    norm_num

/-- Claim C7: with target WALL, the orientation flag succeeds exactly
when the from_dir vector rotated by the instance angles equals neither
(0,0,1) nor (0,0,-1); for precisely those two rotated vectors it
returns false. The angle is universally quantified through the
cosines and sines of its three components. -/
theorem flag_angles_wall_iff (ai : Bool) (cos_p sin_p cos_y sin_y cos_r sin_r : ℚ)
    (from_dir : Vec) :
    flag_angles_eval .wall ai cos_p sin_p cos_y sin_y cos_r sin_r from_dir = true ↔
      (from_dir.rotateTrig cos_p sin_p cos_y sin_y cos_r sin_r true ≠ (⟨0, 0, 1⟩ : Vec) ∧
       from_dir.rotateTrig cos_p sin_p cos_y sin_y cos_r sin_r true ≠ (⟨0, 0, -1⟩ : Vec)) := by
  simp [flag_angles_eval, not_or]

/-- get_indent_chars yields none exactly on all-whitespace lines. -/
theorem get_indent_chars_none_iff (l : List Char) :
    get_indent_chars l = none ↔ ∀ c ∈ l, c = ' ' ∨ c = '\t' := by
  induction l with
  | nil => simp [get_indent_chars]
  | cons c rest ih =>
    by_cases hc : c = ' ' ∨ c = '\t'
    · simp [get_indent_chars, if_pos hc, Option.map_eq_none, ih, hc]
    · simp [get_indent_chars, if_neg hc, hc]

/-- get_indent_chars returns the leading whitespace run when a
non-whitespace character follows. -/
theorem get_indent_chars_prefix (w : List Char) (c : Char) (rest : List Char)
    (hw : ∀ ch ∈ w, ch = ' ' ∨ ch = '\t') (hc : ¬(c = ' ' ∨ c = '\t')) :
    get_indent_chars (w ++ c :: rest) = some w := by
  induction w with
  | nil => simp [get_indent_chars, if_neg hc]
  | cons ch w2 ih =>
    have hch : ch = ' ' ∨ ch = '\t' := hw ch (by simp)
    have ih2 := ih (fun a ha => hw a (by simp [ha]))
    simp [get_indent_chars, if_pos hch, ih2]

/-- Claim C8: get_indent returns no string at all (None, distinct from
the empty string) exactly when the line is empty or consists entirely
of spaces and tabs, and returns the leading whitespace run when a
non-whitespace character follows it. -/
theorem get_indent_spec :
    (∀ l : List Char, get_indent ⟨l⟩ = none ↔ ∀ c ∈ l, c = ' ' ∨ c = '\t') ∧
    (∀ (w : List Char) (c : Char) (rest : List Char),
      (∀ ch ∈ w, ch = ' ' ∨ ch = '\t') → ¬(c = ' ' ∨ c = '\t') →
      get_indent ⟨w ++ c :: rest⟩ = some ⟨w⟩) := by
  constructor
  · intro l
    simp [get_indent, Option.map_eq_none, get_indent_chars_none_iff]
  · intro w c rest hw hc
    simp [get_indent, get_indent_chars_prefix w c rest hw hc]

/-- Claim C8 witness: the indent of " a" is " " and of a blank line
is None. -/
theorem get_indent_spec_witness :
    get_indent ⟨[' '] ++ 'a' :: []⟩ = some ⟨[' ']⟩ :=
  get_indent_spec.2 [' '] 'a' [] (by decide) (by decide)

/-- Claim C9: the EmptyMapping singleton is invariant under every
mutating operation - setitem, delitem, update, clear, setdefault and
pop with a default all leave it empty (length 0, iteration yields
nothing, no key contained, truthiness false) - while getitem, pop
without a default and popitem raise a lookup failure. -/
theorem empty_mapping_invariant (K V : Type) (m : EMap) (k k2 : K) (v d : V)
    (args : List (K × V)) :
    em_len (em_setitem m k v) = 0 ∧
    em_len (em_delitem m k) = 0 ∧
    em_len (em_clear m) = 0 ∧
    em_len (em_update m args) = 0 ∧
    em_len (em_setdefault m k (some d)).1 = 0 ∧
    em_len (em_pop m k (some d)).1 = 0 ∧
    em_contains (em_setitem m k v) k2 = false ∧
    em_next (K × V) (em_setitem m k v) = .error .stopIteration ∧
    em_bool (em_setitem m k v) = false ∧
    (em_setdefault m k (some d)).2 = some d ∧
    em_getitem V m k = .error .keyError ∧
    (em_pop m k (none : Option V)).2 = .error .keyError ∧
    (em_popitem K V m).2 = .error .keyError :=
  ⟨rfl, rfl, rfl, rfl, rfl, rfl, rfl, rfl, rfl, rfl, rfl, rfl, rfl⟩

/-- Claim C10: conv_bool absorbs to the default only for None; strings
and booleans and the table ints 0 and 1 resolve without raising; every
non-string value outside the lookup table raises AttributeError (at
val.casefold()) instead of returning the supplied default. -/
theorem conv_bool_attribute_error :
    (∀ d : Bool, conv_bool .pynone d = .ok d) ∧
    (∀ (b : Bool) (d : Bool), conv_bool (.pybool b) d = .ok b) ∧
    (∀ d : Bool, conv_bool (.pyint 0) d = .ok false ∧ conv_bool (.pyint 1) d = .ok true) ∧
    (∀ (s : String) (d : Bool), ∃ b, conv_bool (.pystr s) d = .ok b) ∧
    (∀ (val : PyVal) (d : Bool), val.isStr = false → val ≠ .pynone →
      boolLookup val = none → conv_bool val d = .error .attributeError) := by
  refine ⟨fun d => rfl, ?_, fun d => ⟨rfl, rfl⟩, ?_, ?_⟩
  · intro b d
    cases b <;> rfl
  · intro s d
    unfold conv_bool
    cases h : boolLookup (.pystr s) with
    | some b => exact ⟨b, rfl⟩
    | none => exact ⟨(boolLookup (.pystr (pyCasefold s))).getD d, rfl⟩
  · intro val d hstr hnone hlook
    cases val with
    | pystr s => simp [PyVal.isStr] at hstr
    | pynone => exact absurd rfl hnone
    | pybool b => simp [conv_bool, hlook]
    | pyint n => simp [conv_bool, hlook]
    | pyfloat q => simp [conv_bool, hlook]

/-- Claim C10 witness: the integer 2 and the float 2.5 raise
AttributeError from conv_bool instead of yielding the default. -/
theorem conv_bool_attribute_error_witness :
    conv_bool (.pyint 2) false = .error .attributeError :=
  conv_bool_attribute_error.2.2.2.2 (.pyint 2) false (by decide) (by decide) (by decide)

/-- Claim C4 (counterexample): the claim states that every piece of the
module-level pass state, including the bullseye dedup set and the
quote-event registry, is initialized at the start of each add_voice
pass. But add_voice only rebinds VMF, map_attr, style_vars and
ALLOW_MID_VOICES: a bullseye name recorded during a first pass is still
registered after a second pass starts (so the second pass spawns no
entity for it), and a registered quote event also survives. -/
theorem voice_state_persists_across_passes :
    (add_voice_init
      (add_bullseye (add_voice_init voice_initial [("cave", true)] [] 1)
        "cave_bullseye").1
      [] [] 2).added_bullseyes = ["cave_bullseye"] ∧
    (add_bullseye
      (add_voice_init
        (add_bullseye (add_voice_init voice_initial [("cave", true)] [] 1)
          "cave_bullseye").1
        [] [] 2)
      "cave_bullseye").2 = false ∧
    (add_voice_init (res_quote_event voice_initial "glados_fall" "fall.vmf")
      [] [] 2).quote_events = [("glados_fall", "fall.vmf")] := by
  decide

/-- Claim C4 (amended): at the start of each add_voice pass the Map
Document reference, the item-presence map, the style-variable map and
the mid-voice flag are rebound from the arguments, independent of any
previous pass; the quote-event registry and the bullseye dedup set are
not re-initialized and carry over from the previous pass unchanged. -/
theorem add_voice_init_spec (s : VoiceState)
    (has_items style_vars_arg : List (String × Bool)) (vmf_file : ℕ) :
    (add_voice_init s has_items style_vars_arg vmf_file).vmf = vmf_file ∧
    (add_voice_init s has_items style_vars_arg vmf_file).map_attr = has_items ∧
    (add_voice_init s has_items style_vars_arg vmf_file).style_vars = style_vars_arg ∧
    (add_voice_init s has_items style_vars_arg vmf_file).allow_mid_voices =
      !((style_vars_arg.lookup "nomidvoices").getD false) ∧
    (add_voice_init s has_items style_vars_arg vmf_file).quote_events = s.quote_events ∧
    (add_voice_init s has_items style_vars_arg vmf_file).added_bullseyes = s.added_bullseyes :=
  ⟨rfl, rfl, rfl, rfl, rfl, rfl⟩

/-- Claim C6: in the trigger output re-homing, the output that targets
the partner marker is always dropped; otherwise an output matching the
registered activate pin is emitted as the configured trigger-activate
output and one matching the deactivate pin (and not the activate pin,
which the code tests first) as the trigger-deactivate output, in both
cases unless the configured name is the empty string, in which case the
matched output is dropped; an output matching neither pin is dropped. -/
theorem resize_trigger_output_remap (partner : String)
    (act_name deact_name : Option String)
    (act_out deact_out trig_act trig_deact : String) (out : Output) :
    (out.target = partner →
      remap_marker_output partner act_name deact_name act_out deact_out
        trig_act trig_deact out = none) ∧
    (out.target ≠ partner → out.inst_out = act_name → out.output = act_out →
      trig_act ≠ "" →
      remap_marker_output partner act_name deact_name act_out deact_out
        trig_act trig_deact out =
        some { output := trig_act, target := out.target, inst_out := none,
               inst_in := out.inst_in, inp := out.inp, params := out.params,
               delay := out.delay, times := out.times }) ∧
    (out.target ≠ partner → out.inst_out = act_name → out.output = act_out →
      trig_act = "" →
      remap_marker_output partner act_name deact_name act_out deact_out
        trig_act trig_deact out = none) ∧
    (out.target ≠ partner → ¬(out.inst_out = act_name ∧ out.output = act_out) →
      out.inst_out = deact_name → out.output = deact_out → trig_deact ≠ "" →
      remap_marker_output partner act_name deact_name act_out deact_out
        trig_act trig_deact out =
        some { output := trig_deact, target := out.target, inst_out := none,
               inst_in := out.inst_in, inp := out.inp, params := out.params,
               delay := out.delay, times := out.times }) ∧
    (out.target ≠ partner → ¬(out.inst_out = act_name ∧ out.output = act_out) →
      out.inst_out = deact_name → out.output = deact_out → trig_deact = "" →
      remap_marker_output partner act_name deact_name act_out deact_out
        trig_act trig_deact out = none) ∧
    (out.target ≠ partner → ¬(out.inst_out = act_name ∧ out.output = act_out) →
      ¬(out.inst_out = deact_name ∧ out.output = deact_out) →
      remap_marker_output partner act_name deact_name act_out deact_out
        trig_act trig_deact out = none) := by
  refine ⟨?_, ?_, ?_, ?_, ?_, ?_⟩
  · intro h
    simp [remap_marker_output, h]
  · intro h1 h2 h3 h4
    simp only [remap_marker_output, if_neg h1, if_pos (And.intro h2 h3)]
    simp [h4]
  · intro h1 h2 h3 h4
    simp only [remap_marker_output, if_neg h1, if_pos (And.intro h2 h3)]
    simp [h4]
  · intro h1 h2 h3 h4 h5
    simp only [remap_marker_output, if_neg h1, if_neg h2, if_pos (And.intro h3 h4)]
    simp [h5]
  · intro h1 h2 h3 h4 h5
    simp only [remap_marker_output, if_neg h1, if_neg h2, if_pos (And.intro h3 h4)]
    simp [h5]
  · intro h1 h2 h3
    simp only [remap_marker_output, if_neg h1, if_neg h2, if_neg h3]

/-- Claim C6 witness: a marker output on the activate pin, aimed at a
door rather than at the partner marker, is re-emitted as the configured
trigger-activate output with its routing fields preserved. -/
theorem resize_trigger_output_remap_witness :
    remap_marker_output "marker2" (some "out") (some "out")
      "OnActivated" "OnDeactivated" "OnStartTouchAll" "OnEndTouchAll"
      { output := "OnActivated", target := "door1", inst_out := some "out",
        inst_in := some "in", inp := "Open", params := "", delay := 0, times := -1 } =
      some { output := "OnStartTouchAll", target := "door1", inst_out := none,
             inst_in := some "in", inp := "Open", params := "", delay := 0, times := -1 } :=
  (resize_trigger_output_remap "marker2" (some "out") (some "out")
      "OnActivated" "OnDeactivated" "OnStartTouchAll" "OnEndTouchAll"
      { output := "OnActivated", target := "door1", inst_out := some "out",
        inst_in := some "in", inp := "Open", params := "", delay := 0, times := -1 }).2.1
    (by decide) rfl rfl (by decide)

/-- Point update reads back at the updated path. -/
theorem FS.update_self (fs : FS) (p : String) (c : Option (List String)) :
    fs.update p c p = c := by
  simp [FS.update]

/-- Point update leaves other paths alone. -/
theorem FS.update_other (fs : FS) (p q : String) (c : Option (List String))
    (h : q ≠ p) : fs.update p c q = fs q := by
  simp [FS.update, h]

/-- A sequence of writes to the temporary file leaves every other path
unchanged. -/
theorem foldl_write_other (writes : List String) (fs : FS) (tmp q : String)
    (h : q ≠ tmp) :
    (writes.foldl (fun f s => f.write tmp s) fs) q = fs q := by
  induction writes generalizing fs with
  | nil => rfl
  | cons w ws ih =>
    simp only [List.foldl_cons]
    rw [ih]
    simp [FS.write, FS.update, h]

/-- A sequence of writes to an open temporary file appends its chunks in
order. -/
theorem foldl_write_self (writes : List String) (fs : FS) (tmp : String)
    (acc : List String) (h : fs tmp = some acc) :
    (writes.foldl (fun f s => f.write tmp s) fs) tmp = some (acc ++ writes) := by
  induction writes generalizing fs acc with
  | nil => simp [h]
  | cons w ws ih =>
    simp only [List.foldl_cons]
    rw [ih ((fs.write tmp w)) (acc ++ [w]) (by simp [FS.write, FS.update, h])]
    simp

/-- The temporary file holds exactly the body writes once the body is
done. -/
theorem atomic_body_fold (fs : FS) (tmp : String) (writes : List String) :
    (writes.foldl (fun f s => f.write tmp s) (fs.update tmp (some []))) tmp =
      some writes := by
  rw [foldl_write_self writes _ tmp [] (FS.update_self fs tmp (some []))]
  simp

/-- The exceptional run of the writer, computed: the writer is closed,
the temporary file removed, the exception not suppressed. -/
theorem atomic_run_exc (fs : FS) (target tmp : String) (writes : List String) :
    atomic_run fs target tmp writes true =
      some (⟨target, none⟩,
        (writes.foldl (fun f s => f.write tmp s)
          (fs.update tmp (some []))).update tmp none,
        false) := by
  simp only [atomic_run, AtomicWriter.enter, AtomicWriter.exit, os_remove,
    atomic_body_fold]
  simp

/-- The clean run of the writer, computed: the temporary file is
renamed over the target. -/
theorem atomic_run_ok (fs : FS) (target tmp : String) (writes : List String) :
    atomic_run fs target tmp writes false =
      some (⟨target, none⟩,
        ((writes.foldl (fun f s => f.write tmp s)
            (fs.update tmp (some []))).update tmp none).update target (some writes),
        false) := by
  simp only [atomic_run, AtomicWriter.enter, AtomicWriter.exit, os_replace,
    atomic_body_fold]
  simp

/-- Claim C1: using AtomicWriter as a context manager is all-or-nothing.
For every filesystem, target path, fresh temporary name and body write
sequence: if the body raises, the pre-existing target file (content or
absence) is unchanged, the temporary file is removed and the False
return lets the exception propagate; if the body completes, the target
afterwards holds exactly the written chunks and the temporary file is
gone. A FileNotFoundError from the cleanup removal is swallowed: exit
succeeds and leaves the filesystem as it found it. -/
theorem atomic_writer_all_or_nothing (fs : FS) (target tmp : String)
    (writes : List String) (hne : tmp ≠ target) :
    (∃ fsE, atomic_run fs target tmp writes true =
        some (⟨target, none⟩, fsE, false) ∧
      fsE target = fs target ∧ fsE tmp = none) ∧
    (∃ fsC, atomic_run fs target tmp writes false =
        some (⟨target, none⟩, fsC, false) ∧
      fsC target = some writes ∧ fsC tmp = none) ∧
    (∀ fs2 : FS, fs2 tmp = none →
      AtomicWriter.exit ⟨target, some tmp⟩ fs2 true =
        some (⟨target, none⟩, fs2, false)) := by
  refine ⟨?_, ?_, ?_⟩
  · refine ⟨_, atomic_run_exc fs target tmp writes, ?_, ?_⟩
    · rw [FS.update_other _ tmp target _ (Ne.symm hne),
        foldl_write_other writes _ tmp target (Ne.symm hne),
        FS.update_other fs tmp target _ (Ne.symm hne)]
    · exact FS.update_self _ tmp none
  · refine ⟨_, atomic_run_ok fs target tmp writes, ?_, ?_⟩
    · exact FS.update_self _ target (some writes)
    · rw [FS.update_other _ target tmp _ hne]
      exact FS.update_self _ tmp none
  · intro fs2 h2
    simp only [AtomicWriter.exit, os_remove, h2]
    simp

/-- Sending a value into the two-sided accumulator adds it to the sum,
whichever end it lands on. -/
theorem push_side_sum (side : Bool) (x : ℤ) (items : List ℤ) :
    (push_side side x items).sum = items.sum + x := by
  cases side
  · simp [push_side]
  · simp [push_side, add_comm]

/-- The while loop of fit terminates within dist.toNat iterations for
positive part sizes and accounts exactly for the distance it consumed:
it stops with a non-negative remainder below the smallest part, having
accumulated parts summing to the consumed distance. -/
theorem fitLoop_spec (obj : List ℤ) (smallest : ℤ)
    (hlast : obj.getLast? = some smallest) (hpos : ∀ i ∈ obj, 0 < i) :
    ∀ (fuel : ℕ) (dist : ℤ) (items : List ℤ) (side : Bool),
      0 ≤ dist → dist.toNat ≤ fuel →
      ∃ items2 side2 rest,
        fitLoop fuel dist obj smallest items side = some (items2, side2, rest) ∧
        0 ≤ rest ∧ rest < smallest ∧
        items2.sum = items.sum + (dist - rest) := by
  have hsm : 0 < smallest := hpos smallest (List.mem_of_mem_getLast? hlast)
  intro fuel
  induction fuel with
  | zero =>
    intro dist items side h0 hfuel
    have hdz : dist = 0 := by omega
    subst hdz
    exact ⟨items, side, 0, by simp [fitLoop, hsm], le_refl 0, hsm, by simp⟩
  | succ fuel ih =>
    intro dist items side h0 hfuel
    by_cases hstop : dist < smallest
    · exact ⟨items, side, dist, by simp [fitLoop, hstop], h0, hstop, by ring_nf⟩
    · have hfind : ∃ item, obj.find? (fun i => decide (i ≤ dist)) = some item := by
        have : (obj.find? (fun i => decide (i ≤ dist))).isSome := by
          rw [List.find?_isSome]
          exact ⟨smallest, List.mem_of_mem_getLast? hlast, by simp; omega⟩
        exact Option.isSome_iff_exists.mp this
      obtain ⟨item, hitem⟩ := hfind
      have hmem : item ∈ obj := List.mem_of_find?_eq_some hitem
      have hle : item ≤ dist := by
        have := List.find?_some hitem
        simpa using this
      have hipos : 0 < item := hpos item hmem
      obtain ⟨items2, side2, rest, hrun, hge, hlt, hsum⟩ :=
        ih (dist - item) (push_side side item items) (!side)
          (by omega) (by omega)
      refine ⟨items2, side2, rest, ?_, hge, hlt, ?_⟩
      · simp [fitLoop, hstop, hitem, hrun]
      · rw [hsum, push_side_sum]
        ring

/-- Claim C5: for every (truncated integer) target distance and every
non-empty sequence of positive part sizes, fit terminates with a
result; for target at most 0 the result is the empty sequence, and
otherwise the returned parts, remainder piece included, sum exactly to
the target. -/
theorem fit_sum_invariant (dist : ℤ) (obj : List ℤ) (hne : obj ≠ [])
    (hpos : ∀ i ∈ obj, 0 < i) :
    ∃ r, fit dist obj = some r ∧ (dist ≤ 0 → r = []) ∧ r.sum = max dist 0 := by
  by_cases hd : dist ≤ 0
  · refine ⟨[], by simp [fit, hd], fun _ => rfl, ?_⟩
    simp [max_eq_right hd]
  · have hdpos : 0 < dist := by omega
    obtain ⟨smallest, hlast⟩ :
        ∃ smallest, obj.getLast? = some smallest := by
      cases hobj : obj.getLast? with
      | none => exact absurd (List.getLast?_eq_none_iff.mp hobj) hne
      | some s => exact ⟨s, rfl⟩
    obtain ⟨items2, side2, rest, hrun, hge, hlt, hsum⟩ :=
      fitLoop_spec obj smallest hlast hpos dist.toNat dist [] false
        (by omega) (le_refl _)
    refine ⟨if 0 < rest then push_side side2 rest items2 else items2, ?_,
      fun h => absurd h hd, ?_⟩
    · simp [fit, hd, hlast, hrun]
    · by_cases hr : 0 < rest
      · rw [if_pos hr, push_side_sum, hsum]
        simp
        omega
      · rw [if_neg hr, hsum]
        simp
        omega

/-- Claim C5 witness: target 20 with parts [12, 8, 4] yields a result
summing to 20. -/
theorem fit_sum_invariant_witness :
    ∃ r, fit 20 [12, 8, 4] = some r ∧ ((20 : ℤ) ≤ 0 → r = []) ∧
      r.sum = max 20 0 :=
  fit_sum_invariant 20 [12, 8, 4] (by decide) (by decide)

/-- Claim C1 witness: a concrete run over the empty filesystem with two
body writes, in both the exceptional and the clean case, and the
swallowed cleanup removal. -/
theorem atomic_writer_all_or_nothing_witness :
    (∃ fsE, atomic_run (fun _ => none) "cfg/out.txt" "cfg/tmpab123" ["a", "b"] true =
        some (⟨"cfg/out.txt", none⟩, fsE, false) ∧
      fsE "cfg/out.txt" = (fun _ => none : FS) "cfg/out.txt" ∧
      fsE "cfg/tmpab123" = none) ∧
    (∃ fsC, atomic_run (fun _ => none) "cfg/out.txt" "cfg/tmpab123" ["a", "b"] false =
        some (⟨"cfg/out.txt", none⟩, fsC, false) ∧
      fsC "cfg/out.txt" = some ["a", "b"] ∧ fsC "cfg/tmpab123" = none) ∧
    (∀ fs2 : FS, fs2 "cfg/tmpab123" = none →
      AtomicWriter.exit ⟨"cfg/out.txt", some "cfg/tmpab123"⟩ fs2 true =
        some (⟨"cfg/out.txt", none⟩, fs2, false)) :=
  atomic_writer_all_or_nothing (fun _ => none) "cfg/out.txt" "cfg/tmpab123"
    ["a", "b"] (by decide)

end BEE2
